import Mathlib

/-!
Shallow embedding of the paperwise AI backend (`ai-backend/main.py`): a
retrieval-augmented question-answering service.  External collaborators
(the vector store, the embedding model, the generative model, the document
parsing libraries and the text splitter) are modelled as explicit function
parameters with an `Except` error channel standing for Python exceptions;
the service-side logic (parsing orchestration, retrieval post-processing,
answer generation, endpoint control flow) is translated directly from the
source.  Note that `main.py` contains unreachable duplicate function bodies
after `return` statements (in `parse_pdf`, `retrieve_context`,
`generate_rag_response`); only the live code paths are embedded.
-/

namespace Paperwise

/-! ### Python string primitives

Executable character-list implementations of the Python string operations
the source uses (`str.strip`, `str.split()` + `' '.join`, `str.lower`,
slicing), so that concrete inputs evaluate by kernel reduction. -/

/-- Python `str.strip()` on the underlying character list: drop leading and
trailing whitespace. -/
def stripChars (cs : List Char) : List Char :=
  ((cs.dropWhile Char.isWhitespace).reverse.dropWhile Char.isWhitespace).reverse

/-- Python `s.strip()`. -/
def pyStrip (s : String) : String := String.mk (stripChars s.data)

/-- Helper of `pyWords`: accumulate the current (reversed) word while
scanning the character list; whitespace closes a word. -/
def wordsAux : List Char → List Char → List (List Char)
  | cur, [] => if cur = [] then [] else [cur.reverse]
  | cur, c :: cs =>
    if c.isWhitespace then
      if cur = [] then wordsAux [] cs else cur.reverse :: wordsAux [] cs
    else wordsAux (c :: cur) cs

/-- Python `s.split()` (split on whitespace runs, no empty pieces). -/
def pyWords (s : String) : List (List Char) := wordsAux [] s.data

/-- Join words with single spaces. -/
def joinWordsChars : List (List Char) → List Char
  | [] => []
  | [w] => w
  | w :: ws => w ++ ' ' :: joinWordsChars ws

/-- Python `' '.join(s.split())`: collapse every whitespace run to a single
space and drop leading/trailing whitespace. -/
def normalizeWs (s : String) : String := String.mk (joinWordsChars (pyWords s))

/-- Python `sep.join(items)`. -/
def joinSep (sep : String) : List String → String
  | [] => ""
  | [s] => s
  | s :: ss => s ++ sep ++ joinSep sep ss

/-- Python `s.lower()` (ASCII-adequate model). -/
def lowerStr (s : String) : String := String.mk (s.data.map Char.toLower)

/-- Python slicing `s[:n]`. -/
def pyTake (n : Nat) (s : String) : String := String.mk (s.data.take n)

/-! ### HTTP exceptions -/

/-- A `fastapi.HTTPException`: status code plus detail message. -/
structure HTTPError where
  status_code : Nat
  detail : String
deriving DecidableEq, Repr

/-- The HTTP status an endpoint responds with: the raised exception status,
or 200 on a normal return. -/
def statusOf {α : Type} : Except HTTPError α → Nat
  | .error e => e.status_code
  | .ok _ => 200

/-! ### Parsing (`parse_pdf`, `parse_docx`, `parse_txt`) -/

/-- One page of a PDF as seen through `pypdf`: `.error` models
`page.extract_text()` raising (caught per page, page skipped), `.ok none`
models `extract_text` returning an empty/None result, `.ok (some t)`
models extracted text `t`. -/
abbrev PageResult := Except String (Option String)

/-- What one page contributes to the accumulated PDF text: the page text is
kept only when the original extraction is non-blank
(`if page_text and page_text.strip()`) and the whitespace-normalized text
is strictly longer than 10 characters; a kept page is prefixed with a
human-readable page label. -/
def pdfPageContribution (idx : Nat) (p : PageResult) : String :=
  match p with
  | .error _ => ""
  | .ok none => ""
  | .ok (some t) =>
    if pyStrip t ≠ "" then
      let norm := normalizeWs t
      if 10 < (pyStrip norm).length then
        "Page " ++ toString (idx + 1) ++ ":\n" ++ norm ++ "\n\n"
      else ""
    else ""

/-- The accumulator loop of `parse_pdf`: `text += ...` over enumerated
pages, starting from `init`. -/
def pdfFold (init : String) (l : List (Nat × PageResult)) : String :=
  l.foldl (fun text ip => text ++ pdfPageContribution ip.1 ip.2) init

/-- The page loop of `parse_pdf`: `text += ...` over the enumerated pages. -/
def buildPdfText (pages : List PageResult) : String :=
  pdfFold "" pages.enum

/-- `parse_pdf`.  The input is the outcome of `PdfReader` on the raw bytes:
`.error` models the reader raising, `.ok pages` the page list.  When no
page yields usable text the function raises HTTP 500 (the inner
`HTTPException(500, "PDF appears to be empty ...")` is re-caught by the
outer `except Exception` and re-raised as
`HTTPException(500, f"PDF Parsing Error: {e}")`, where `str` of a starlette
`HTTPException` is `"{status_code}: {detail}"`). -/
def parse_pdf (input : Except String (List PageResult)) : Except HTTPError String :=
  match input with
  | .error e => .error ⟨500, "PDF Parsing Error: " ++ e⟩
  | .ok pages =>
    let text := buildPdfText pages
    if pyStrip text = "" then
      .error ⟨500,
        "PDF Parsing Error: 500: PDF appears to be empty or contains no extractable text"⟩
    else .ok text

/-- `parse_docx`.  The input is the outcome of reading the DOCX: `.error`
models the library raising (re-raised as HTTP 500), `.ok paragraphs` the
paragraph texts; non-blank paragraphs are joined with newlines. -/
def parse_docx (paragraphs : Except String (List String)) : Except HTTPError String :=
  match paragraphs with
  | .error e => .error ⟨500, "DOCX Parsing Error: " ++ e⟩
  | .ok ps => .ok (joinSep "\n" (ps.filter (fun p => pyStrip p ≠ "")))

/-- `parse_txt`: the bytes decoded as UTF-8, no further processing (the
model assumes decodable bytes). -/
def parse_txt (decoded : String) : String := decoded

/-! ### Filename extension (`os.path.splitext(...)[1].lower()`) -/

/-- Index of the last `.` in the character list, if any. -/
def lastDotIdx (cs : List Char) : Option Nat :=
  ((cs.enum.filter (fun ic => ic.2 = '.')).getLast?).map (fun ic => ic.1)

/-- Python `os.path.splitext(p)[1]` for a plain filename (no path
separator): the suffix starting at the last dot, unless every character
before that dot is itself a dot (leading dots are not an extension). -/
def splitextExt (p : String) : String :=
  match lastDotIdx p.data with
  | none => ""
  | some di =>
    if (p.data.take di).any (fun c => c ≠ '.') then String.mk (p.data.drop di) else ""

/-- `os.path.splitext(file.filename)[1].lower()`. -/
def extLower (filename : String) : String := lowerStr (splitextExt filename)

/-! ### Indexing endpoint (`insert_chunks_to_chroma`, `index_document`) -/

/-- `insert_chunks_to_chroma`: the external `collection.add` call is the
parameter `chromaAdd`; any exception it raises is converted to HTTP 500. -/
def insert_chunks_to_chroma (chromaAdd : List String → String → Except String Unit)
    (chunks : List String) (document_id : String) : Except HTTPError String :=
  match chromaAdd chunks document_id with
  | .error e => .error ⟨500, "Database error during indexing: " ++ e⟩
  | .ok _ => .ok document_id

/-- An uploaded file: its filename plus what each format-specific library
would produce from its bytes (only the field matching the extension is ever
consulted, mirroring the dispatch in `index_document`). -/
structure FileUpload where
  filename : String
  pdfData : Except String (List PageResult)
  docxData : Except String (List String)
  txtData : String

/-- Body of the 200 response of `POST /api/v1/document/index`. -/
structure IndexResponse where
  status : String
  document_id : String
  resp_filename : String
  total_chunks_indexed : Nat
deriving DecidableEq, Repr

/-- `index_document` (`POST /api/v1/document/index`): dispatch on the
lowercased extension (400 if unsupported), reject empty extracted text with
422, then chunk (`split_text`, the external recursive splitter) and store. -/
def index_document (split_text : String → List String)
    (chromaAdd : List String → String → Except String Unit)
    (document_id : String) (file : FileUpload) : Except HTTPError IndexResponse :=
  let ext := extLower file.filename
  let parsed : Except HTTPError String :=
    if ext = ".pdf" then parse_pdf file.pdfData
    else if ext = ".docx" then parse_docx file.docxData
    else if ext = ".txt" then .ok (parse_txt file.txtData)
    else .error ⟨400, "Unsupported file type: " ++ ext⟩
  match parsed with
  | .error e => .error e
  | .ok raw_text =>
    if pyStrip raw_text = "" then
      .error ⟨422, "Could not extract any meaningful text."⟩
    else
      let chunks := split_text raw_text
      match insert_chunks_to_chroma chromaAdd chunks document_id with
      | .error e => .error e
      | .ok cid => .ok ⟨"success", cid, file.filename, chunks.length⟩

/-! ### Chroma vector-store model -/

/-- One nearest-neighbour result as Chroma reports it: the chunk text, its
`chunk_index` metadata and the cosine distance (a real number modelled as a
rational). -/
structure QueryResult where
  content : String
  metadata : Nat
  distance : ℚ
deriving DecidableEq, Repr

/-- A named Chroma collection: `countR` is the outcome of `.count()` and
`queryR query_text n_results` the outcome of `.query(...)`; `.error`
models the call raising. -/
structure Collection where
  countR : Except String Nat
  queryR : String → Nat → Except String (List QueryResult)

/-- The Chroma client: `getCollection` is `get_collection(name=...)`,
which raises (`.error`) when the named collection does not exist. -/
structure ChromaStore where
  getCollection : String → Except String Collection

/-! ### Single-document retrieval (`retrieve_context`) -/

/-- An element of the context list `retrieve_context` returns. -/
structure RetrievalResult where
  content : String
  metadata : Nat
  similarity_score : ℚ
deriving DecidableEq, Repr

/-- `retrieve_context`: open the collection and count it (exceptions caught,
empty list returned), return `[]` on an empty collection, then query for
`min k collection_count` neighbours (exceptions caught, empty list
returned) and accept every result, attaching `1 - distance / 2` as the
similarity score.  The `Except` result type is the Python error channel;
`retrieve_context` never uses it (every exception is caught inside). -/
def retrieve_context (store : ChromaStore) (query : String) (document_id : String)
    (k : Nat) : Except String (List RetrievalResult) :=
  match store.getCollection document_id with
  | .error _ => .ok []
  | .ok col =>
    match col.countR with
    | .error _ => .ok []
    | .ok collection_count =>
      if collection_count = 0 then .ok []
      else
        match col.queryR query (min k collection_count) with
        | .error _ => .ok []
        | .ok results =>
          .ok (results.map (fun r =>
            ({ content := r.content, metadata := r.metadata,
               similarity_score := 1 - r.distance / 2 } : RetrievalResult)))

/-! ### Multi-document retrieval (`retrieve_context_multiple_docs`) -/

/-- An element of the merged multi-document context list: content, metadata,
similarity, originating document identifier and a human-readable source
label. -/
structure MultiContext where
  content : String
  metadata : Nat
  similarity_score : ℚ
  document_id : String
  source : String
deriving DecidableEq, Repr

/-- The per-document store interaction of the multi-document loop:
`get_collection` followed by `.query`, either of which may raise. -/
def docQuery (store : ChromaStore) (query : String) (k_per_doc : Nat)
    (doc_id : String) : Except String (List QueryResult) :=
  match store.getCollection doc_id with
  | .error e => .error e
  | .ok col => col.queryR query k_per_doc

/-- The body of the inner result loop of the multi-document retrieval: a
result with distance < 1.5 is tagged with its document identifier and a
source label and given similarity `1 - distance`; any other result is
dropped. -/
def tagResult (doc_id : String) (ir : Nat × QueryResult) : Option MultiContext :=
  if ir.2.distance < 3 / 2 then
    some { content := ir.2.content, metadata := ir.2.metadata,
           similarity_score := 1 - ir.2.distance, document_id := doc_id,
           source := "Document: " ++ doc_id ++ " | Chunk: " ++ toString ir.1 }
  else none

/-- One iteration of the multi-document loop: on any exception the document
is skipped (`continue`); otherwise the surviving tagged results are
appended in enumeration order. -/
def perDocContexts (store : ChromaStore) (query : String) (k_per_doc : Nat)
    (doc_id : String) : List MultiContext :=
  match docQuery store query k_per_doc doc_id with
  | .error _ => []
  | .ok results => results.enum.filterMap (tagResult doc_id)

/-- Stable insertion of a context into a list kept in non-increasing
similarity order: the new element goes before the first element whose
similarity does not exceed its own. -/
def insertDesc (c : MultiContext) : List MultiContext → List MultiContext
  | [] => [c]
  | b :: l =>
    if b.similarity_score ≤ c.similarity_score then c :: b :: l
    else b :: insertDesc c l

/-- The observable behaviour of
`all_contexts.sort(key=lambda x: x["similarity_score"], reverse=True)`:
a stable sort by non-increasing similarity score. -/
def sortBySimDesc (l : List MultiContext) : List MultiContext := l.foldr insertDesc []

/-- `retrieve_context_multiple_docs`: query every document collection
independently, keep only results with distance < 1.5, tag them, merge,
sort by descending similarity and truncate to the top 10. -/
def retrieve_context_multiple_docs (store : ChromaStore) (query : String)
    (document_ids : List String) (k_per_doc : Nat) : List MultiContext :=
  let all_contexts :=
    document_ids.foldl (fun acc d => acc ++ perDocContexts store query k_per_doc d) []
  (sortBySimDesc all_contexts).take 10

/-! ### Answer generation (`generate_rag_response`,
`generate_rag_response_with_sources`) -/

/-- The generative-model call (`genai.GenerativeModel(...).generate_content`
followed by `.text`): `.ok` is the response text, `.error` models the call
raising. -/
abbrev GenModel := String → Except String String

/-- The RAG prompt template of `generate_rag_response`. -/
def ragPrompt (context_text user_question : String) : String :=
  "\n    You are a helpful document analysis assistant. Analyze the following document content and answer the user\u0027s question.\n\n    DOCUMENT CONTENT:\n    "
  ++ context_text ++
  "\n\n    USER QUESTION: " ++ user_question ++
  "\n\n    INSTRUCTIONS:\n    1. Carefully read and analyze the document content provided\n    2. Answer the question based SOLELY on the information in the document content\n    3. If the document contains relevant information, provide a comprehensive answer\n    4. If the document doesn\u0027t directly answer the question but contains related information, share what you can infer\n    5. Be helpful and provide as much useful information as possible from the document\n    6. Only say you cannot find the answer if the document content is completely irrelevant\n\n    Please provide a helpful answer based on the document content:\n    "

/-- `generate_rag_response`: on an empty context list, the fixed "no
relevant context" message, without calling the model; otherwise the
passages are joined with a delimiter, embedded in the prompt and sent to
the model, whose failure is converted to an in-band error string. -/
def generate_rag_response (genModel : GenModel) (context : List RetrievalResult)
    (user_question : String) : String :=
  if context = [] then
    "I could not find relevant context in the document to answer that question."
  else
    let context_text := joinSep "\n---\n" (context.map (fun c => c.content))
    match genModel (ragPrompt context_text user_question) with
    | .ok t => t
    | .error e => "Error: The AI service failed to generate a response: " ++ e

/-- The grouped, source-labelled context block of
`generate_rag_response_with_sources`. -/
def sourcesContextText (contexts_by_doc : List (String × List MultiContext)) : String :=
  contexts_by_doc.foldl (fun acc p =>
    acc ++ "\n--- DOCUMENT: " ++ p.1 ++ " ---\n" ++
      (p.2.enum.foldl (fun a ic =>
        a ++ "[Source " ++ toString (ic.1 + 1) ++ "]: " ++ ic.2.content ++ "\n\n") "")) ""

/-- The prompt template of `generate_rag_response_with_sources`. -/
def sourcesPrompt (context_text user_question : String) : String :=
  "\n    You are an expert document analysis assistant. Answer the question based ONLY on the provided context from multiple documents.\n    \n    IMPORTANT: \n    - Cite which document each piece of information comes from using the source labels\n    - If information comes from multiple documents, mention this\n    - If documents contradict each other, point this out\n    - Only use information from the provided contexts\n    \n    CONTEXT FROM MULTIPLE DOCUMENTS:\n    "
  ++ context_text ++
  "\n    \n    QUESTION: " ++ user_question ++
  "\n    \n    Provide a comprehensive answer that synthesizes information from all relevant documents, with clear source attribution.\n    "

/-- `generate_rag_response_with_sources`: build the per-document context
block, send the prompt, and convert a model failure into an in-band error
string.  (The `context` parameter of the source is unused in its body.) -/
def generate_rag_response_with_sources (genModel : GenModel)
    (_context : List MultiContext) (user_question : String)
    (contexts_by_doc : List (String × List MultiContext)) : String :=
  match genModel (sourcesPrompt (sourcesContextText contexts_by_doc) user_question) with
  | .ok t => t
  | .error e => "Error generating response: " ++ e

/-! ### Multi-document QA endpoint (`contextual_qa_multiple`) -/

/-- One entry of the `source_metadata` list the endpoint computes. -/
structure SourceMeta where
  document_id : String
  content_preview : String
  similarity : ℚ
  source_info : String
deriving DecidableEq, Repr

/-- The `source_metadata` computation of `contextual_qa_multiple`. -/
def source_metadata_multiple (ctxs : List MultiContext) : List SourceMeta :=
  ctxs.map (fun c =>
    { document_id := c.document_id, content_preview := pyTake 200 c.content ++ "...",
      similarity := c.similarity_score, source_info := c.source })

/-- Response body of `POST /api/v1/qa/ask-multiple`; `sources = none` means
the key is absent from the returned JSON object. -/
structure AskMultipleResponse where
  answer : String
  sources : Option (List SourceMeta)
deriving DecidableEq, Repr

/-- The `contexts_by_doc` grouping: a Python dict in insertion order, keys
in order of first occurrence, values in append order. -/
def groupByDoc (ctxs : List MultiContext) : List (String × List MultiContext) :=
  ctxs.foldl (fun acc c =>
    if acc.any (fun p => p.1 = c.document_id) then
      acc.map (fun p => if p.1 = c.document_id then (p.1, p.2 ++ [c]) else p)
    else acc ++ [(c.document_id, [c])]) []

/-- `contextual_qa_multiple` (`POST /api/v1/qa/ask-multiple`): 400 when
either field is missing/empty, a fixed message (with an empty `sources`
list) when nothing is retrieved, and otherwise a response holding only the
generated answer — the computed `source_metadata` is left out of the
returned dict. -/
def contextual_qa_multiple (store : ChromaStore) (genModel : GenModel)
    (document_ids : List String) (question : String) :
    Except HTTPError AskMultipleResponse :=
  if document_ids = [] ∨ question = "" then
    .error ⟨400, "Missing document_ids or question."⟩
  else
    let context_data := retrieve_context_multiple_docs store question document_ids 3
    if context_data = [] then
      .ok { answer := "I could not find relevant context in the selected documents to answer that question.",
            sources := some [] }
    else
      let contexts_by_doc := groupByDoc context_data
      let answer := generate_rag_response_with_sources genModel context_data question contexts_by_doc
      let _source_metadata := source_metadata_multiple context_data
      .ok { answer := answer, sources := none }

/-! ### Summaries (`generate_document_summary`) -/

/-- The "overview" prompt template. -/
def overviewTemplate (context_text : String) : String :=
  "\n        You are an expert document analysis assistant. Provide a comprehensive overview of the following document.\n        \n        Focus on:\n        - Main topics and themes\n        - Key findings or conclusions\n        - Overall purpose and scope\n        - Important data points or statistics\n        \n        DOCUMENT CONTENT:\n        "
  ++ context_text ++
  "\n        \n        Provide a concise yet informative summary (3-4 paragraphs). Focus on the most important information that gives a complete picture of the document.\n        "

/-- The "key_points" prompt template. -/
def keyPointsTemplate (context_text : String) : String :=
  "\n        Extract the key points and main ideas from this document. Focus on the most important information.\n        \n        DOCUMENT CONTENT:\n        "
  ++ context_text ++
  "\n        \n        Provide a bullet-point list of the 5-7 most important points from the document.\n        "

/-- The "executive" prompt template. -/
def executiveTemplate (context_text : String) : String :=
  "\n        Create an executive summary of this document suitable for quick understanding by busy professionals.\n        \n        DOCUMENT CONTENT:\n        "
  ++ context_text ++
  "\n        \n        Provide a very concise summary (2-3 paragraphs) highlighting:\n        - Primary objective/purpose\n        - Main findings/conclusions\n        - Key recommendations or next steps\n        "

/-- The "detailed" prompt template. -/
def detailedTemplate (context_text : String) : String :=
  "\n        Provide a detailed, comprehensive analysis of this document covering all major aspects.\n        \n        DOCUMENT CONTENT:\n        "
  ++ context_text ++
  "\n        \n        Provide an in-depth summary covering:\n        1. Introduction and context\n        2. Main content and analysis\n        3. Key findings and data\n        4. Conclusions and implications\n        5. Recommendations (if any)\n        "

/-- `prompts.get(summary_type, prompts["overview"])` over the first 15
chunks joined with newlines (`"\n".join(chunks[:15])`). -/
def summaryPrompt (chunks : List String) (summary_type : String) : String :=
  let context_text := joinSep "\n" (chunks.take 15)
  if summary_type = "overview" then overviewTemplate context_text
  else if summary_type = "key_points" then keyPointsTemplate context_text
  else if summary_type = "executive" then executiveTemplate context_text
  else if summary_type = "detailed" then detailedTemplate context_text
  else overviewTemplate context_text

/-- `generate_document_summary`: build the style prompt (falling back to
"overview" for unknown styles), call the model, and on failure return the
style-specific fallback message instead of propagating the error.  (The
`document_id` parameter of the source is unused in its body.) -/
def generate_document_summary (genModel : GenModel) (_document_id : String)
    (chunks : List String) (summary_type : String) : String :=
  match genModel (summaryPrompt chunks summary_type) with
  | .ok t => t
  | .error _ => "Unable to generate " ++ summary_type ++ " summary at this time."

/-! ### Concrete fixtures used by witnesses and counterexamples -/

/-- A trivial stand-in for the external text splitter. -/
def oneChunkSplit : String → List String := fun s => [s]

/-- A Chroma `add` that always succeeds. -/
def alwaysOkAdd : List String → String → Except String Unit := fun _ _ => .ok ()

/-- A `.pdf` upload whose reader yields zero pages. -/
def pdfEmptyUpload : FileUpload :=
  { filename := "empty.pdf", pdfData := .ok [], docxData := .ok [], txtData := "" }

/-- A `.txt` upload whose decoded text is whitespace-only. -/
def txtBlankUpload : FileUpload :=
  { filename := "notes.txt", pdfData := .ok [], docxData := .ok [], txtData := "   " }

/-- A single nearest-neighbour result at distance 0. -/
def q1 : QueryResult := { content := "hello world", metadata := 0, distance := 0 }

/-- A one-chunk collection returning `q1` for every query. -/
def col1 : Collection := { countR := .ok 1, queryR := fun _ _ => .ok [q1] }

/-- A store resolving every name to `col1`. -/
def store1 : ChromaStore := { getCollection := fun _ => .ok col1 }

/-- The tagged context `q1` becomes for document `d1`. -/
def ctx1 : MultiContext :=
  { content := "hello world", metadata := 0, similarity_score := 1 - 0,
    document_id := "d1", source := "Document: d1 | Chunk: 0" }

/-- A store whose `get_collection` always raises. -/
def storeAbsent : ChromaStore := { getCollection := fun _ => .error "Collection nonexistent" }

/-- A collection whose `query` always raises. -/
def colBad : Collection := { countR := .ok 2, queryR := fun _ _ => .error "query boom" }

/-- A store resolving every name to `colBad`. -/
def storeBad : ChromaStore := { getCollection := fun _ => .ok colBad }

/-- A generative model whose call always raises. -/
def genFail : GenModel := fun _ => .error "model down"

/-- A retrieval result used as a non-empty context. -/
def rctx1 : RetrievalResult := { content := "chunk text", metadata := 0, similarity_score := 1 }

/-! ### Helper lemmas: whitespace stripping and the PDF page fold -/

lemma all_ws_of_stripChars_nil {cs : List Char} (h : stripChars cs = []) :
    ∀ c ∈ cs, c.isWhitespace := by
  unfold stripChars at h
  rw [List.reverse_eq_nil_iff] at h
  have h2 : ∀ c ∈ (cs.dropWhile Char.isWhitespace).reverse, c.isWhitespace :=
    List.dropWhile_eq_nil_iff.mp h
  intro c hc
  have hc2 : c ∈ cs.takeWhile Char.isWhitespace ++ cs.dropWhile Char.isWhitespace := by
    rw [List.takeWhile_append_dropWhile]
    exact hc
  rcases List.mem_append.mp hc2 with h3 | h4
  · exact List.mem_takeWhile_imp h3
  · exact h2 c (List.mem_reverse.mpr h4)

lemma wordsAux_nil_of_all_ws : ∀ cs : List Char, (∀ c ∈ cs, c.isWhitespace) →
    wordsAux [] cs = [] := by
  intro cs
  induction cs with
  | nil => intro _; rfl
  | cons c cs ih =>
    intro h
    simp only [wordsAux]
    rw [if_pos (h c (List.mem_cons_self c cs))]
    simp only [if_true]
    exact ih (fun x hx => h x (List.mem_cons_of_mem c hx))

lemma normalizeWs_eq_empty_of_strip {t : String} (h : pyStrip t = "") :
    normalizeWs t = "" := by
  have hd : stripChars t.data = [] := by
    have h2 := congrArg String.data h
    simpa [pyStrip] using h2
  unfold normalizeWs pyWords
  rw [wordsAux_nil_of_all_ws t.data (all_ws_of_stripChars_nil hd)]
  rfl

lemma pdfFold_cons (init : String) (ip : Nat × PageResult) (l : List (Nat × PageResult)) :
    pdfFold init (ip :: l) = pdfFold (init ++ pdfPageContribution ip.1 ip.2) l := rfl

lemma pdfFold_factor : ∀ (l : List (Nat × PageResult)) (init : String),
    pdfFold init l = init ++ pdfFold "" l := by
  intro l
  induction l with
  | nil => intro init; simp [pdfFold, String.append_empty]
  | cons ip l ih =>
    intro init
    rw [pdfFold_cons, ih, pdfFold_cons "", ih ("" ++ pdfPageContribution ip.1 ip.2),
      String.empty_append, String.append_assoc]

lemma pdfFold_append (l1 l2 : List (Nat × PageResult)) (init : String) :
    pdfFold init (l1 ++ l2) = pdfFold (pdfFold init l1) l2 :=
  List.foldl_append _ _ _ _

/-! ### C1 -/

/-- C1 (amended): `index_document` answers 400 on an unsupported extension;
it answers 422 when the parsed text of a `.txt` or `.docx` file is empty or
whitespace-only; but for a `.pdf` whose pages yield no usable text the
failure is HTTP 500, raised inside `parse_pdf`, so the 422 branch is never
reached for PDFs. -/
theorem index_document_status_spec (split_text : String → List String)
    (chromaAdd : List String → String → Except String Unit)
    (document_id : String) (file : FileUpload) :
    (extLower file.filename ∉ ([".pdf", ".docx", ".txt"] : List String) →
      statusOf (index_document split_text chromaAdd document_id file) = 400) ∧
    (extLower file.filename = ".txt" → pyStrip file.txtData = "" →
      statusOf (index_document split_text chromaAdd document_id file) = 422) ∧
    (extLower file.filename = ".docx" →
      ∀ raw, parse_docx file.docxData = Except.ok raw → pyStrip raw = "" →
      statusOf (index_document split_text chromaAdd document_id file) = 422) ∧
    (extLower file.filename = ".pdf" →
      ∀ pages, file.pdfData = Except.ok pages → pyStrip (buildPdfText pages) = "" →
      statusOf (index_document split_text chromaAdd document_id file) = 500) := by
  refine ⟨?_, ?_, ?_, ?_⟩
  · intro h
    simp only [List.mem_cons, List.not_mem_nil, or_false, not_or] at h
    obtain ⟨h1, h2, h3⟩ := h
    simp only [index_document, if_neg h1, if_neg h2, if_neg h3, statusOf]
  · intro hext he
    have h1 : extLower file.filename ≠ ".pdf" := by rw [hext]; decide
    have h2 : extLower file.filename ≠ ".docx" := by rw [hext]; decide
    simp only [index_document, if_neg h1, if_neg h2, if_pos hext, parse_txt]
    rw [if_pos he]
    rfl
  · intro hext raw hraw he
    have h1 : extLower file.filename ≠ ".pdf" := by rw [hext]; decide
    simp only [index_document, if_neg h1, if_pos hext, hraw]
    rw [if_pos he]
    rfl
  · intro hext pages hpages he
    simp only [index_document, if_pos hext, parse_pdf, hpages]
    rw [if_pos he]
    rfl

/-- C1 witness: a whitespace-only `.txt` upload is rejected with 422. -/
theorem index_document_status_spec_witness :
    statusOf (index_document oneChunkSplit alwaysOkAdd "doc1" txtBlankUpload) = 422 :=
  (index_document_status_spec oneChunkSplit alwaysOkAdd "doc1" txtBlankUpload).2.1
    (by decide) (by decide)

/-- C1 counterexample: a supported (`.pdf`) upload whose parsed text is
empty is answered with HTTP 500 (raised by `parse_pdf`), not 422 as the
claim states. -/
theorem index_pdf_empty_yields_500 :
    extLower pdfEmptyUpload.filename = ".pdf" ∧
    buildPdfText [] = "" ∧
    statusOf (index_document oneChunkSplit alwaysOkAdd "doc0" pdfEmptyUpload) = 500 ∧
    statusOf (index_document oneChunkSplit alwaysOkAdd "doc0" pdfEmptyUpload) ≠ 422 := by
  refine ⟨by decide, rfl, by decide, by decide⟩

/-! ### C4 -/

/-- C4 (amended): a PDF page is kept (labelled and concatenated into the
output) exactly when its whitespace-normalized extracted text is strictly
longer than 10 characters; pages of 10 or fewer characters — including
exactly 10 — contribute nothing. -/
theorem pdf_page_threshold_spec (pages : List PageResult) :
    (∀ i t, (i, (Except.ok (some t) : PageResult)) ∈ pages.enum →
      10 < (pyStrip (normalizeWs t)).length →
      ∃ pre post, buildPdfText pages =
        pre ++ ("Page " ++ toString (i + 1) ++ ":\n" ++ normalizeWs t ++ "\n\n") ++ post) ∧
    (∀ i t, (pyStrip (normalizeWs t)).length ≤ 10 →
      pdfPageContribution i (Except.ok (some t)) = "") := by
  constructor
  · intro i t hmem hlen
    obtain ⟨l1, l2, hsplit⟩ := List.append_of_mem hmem
    have hstrip : pyStrip t ≠ "" := by
      intro h0
      rw [normalizeWs_eq_empty_of_strip h0] at hlen
      exact absurd hlen (by decide)
    have hcontrib : pdfPageContribution i (Except.ok (some t)) =
        "Page " ++ toString (i + 1) ++ ":\n" ++ normalizeWs t ++ "\n\n" := by
      simp only [pdfPageContribution]
      rw [if_pos hstrip, if_pos hlen]
    refine ⟨pdfFold "" l1, pdfFold "" l2, ?_⟩
    unfold buildPdfText
    rw [hsplit, pdfFold_append, pdfFold_cons, pdfFold_factor, hcontrib]
  · intro i t hle
    simp only [pdfPageContribution]
    by_cases hs : pyStrip t = ""
    · rw [if_neg (not_not_intro hs)]
    · rw [if_pos hs, if_neg (Nat.not_lt.mpr hle)]

/-- C4 witness: a 3-character page contributes nothing. -/
theorem pdf_page_threshold_spec_witness :
    pdfPageContribution 0 (Except.ok (some "abc")) = "" :=
  (pdf_page_threshold_spec []).2 0 "abc" (by decide)

/-- C4 counterexample: a page whose normalized text is exactly 10
characters long — "at least 10 characters" per the claim — is discarded:
it contributes nothing, and a PDF consisting of that page alone parses to
the empty-document error. -/
theorem pdf_ten_char_page_dropped :
    (pyStrip (normalizeWs "abcdefghij")).length = 10 ∧
    pdfPageContribution 0 (Except.ok (some "abcdefghij")) = "" ∧
    parse_pdf (Except.ok [Except.ok (some "abcdefghij")]) =
      Except.error ⟨500,
        "PDF Parsing Error: 500: PDF appears to be empty or contains no extractable text"⟩ := by
  refine ⟨by decide, by decide, rfl⟩

/-! ### C3, C5, C9: single-document retrieval -/

/-- C3: on an existing non-empty collection whose query succeeds,
`retrieve_context` returns every result the nearest-neighbour query
yields — no distance filtering — each carrying similarity
`1 - distance / 2`, and (under the store contract that a query returns at
most `n_results` results) at most `k` of them. -/
theorem retrieve_context_success_spec (store : ChromaStore) (query document_id : String)
    (k : Nat) (col : Collection) (cnt : Nat) (results : List QueryResult)
    (hcol : store.getCollection document_id = Except.ok col)
    (hcnt : col.countR = Except.ok cnt) (hpos : 0 < cnt)
    (hq : col.queryR query (min k cnt) = Except.ok results)
    (hlen : results.length ≤ min k cnt) :
    retrieve_context store query document_id k =
      Except.ok (results.map (fun r =>
        ({ content := r.content, metadata := r.metadata,
           similarity_score := 1 - r.distance / 2 } : RetrievalResult))) ∧
    results.length ≤ k := by
  constructor
  · simp only [retrieve_context, hcol, hcnt, hq]
    rw [if_neg (Nat.pos_iff_ne_zero.mp hpos)]
  · exact le_trans hlen (Nat.min_le_left k cnt)

/-- C3 witness: a one-element collection at distance 0 is returned whole. -/
theorem retrieve_context_success_spec_witness :
    retrieve_context store1 "what" "doc" 5 =
      Except.ok [{ content := "hello world", metadata := 0, similarity_score := 1 - 0 / 2 }] :=
  (retrieve_context_success_spec store1 "what" "doc" 5 col1 1 [q1] rfl rfl
    (by decide) rfl (by decide)).1

/-- C5: an absent collection (`get_collection` raises) or a collection
counting zero entries makes `retrieve_context` return the empty list
normally, with no error to the caller. -/
theorem retrieve_context_empty_spec (store : ChromaStore) (query document_id : String)
    (k : Nat)
    (h : (∃ e, store.getCollection document_id = Except.error e) ∨
         (∃ col, store.getCollection document_id = Except.ok col ∧
            col.countR = Except.ok 0)) :
    retrieve_context store query document_id k = Except.ok [] := by
  rcases h with ⟨e, he⟩ | ⟨col, hc, h0⟩
  · simp only [retrieve_context, he]
  · simp [retrieve_context, hc, h0]

/-- C5 witness: querying a never-indexed identifier yields the empty
context list. -/
theorem retrieve_context_empty_spec_witness :
    retrieve_context storeAbsent "what" "never-indexed" 5 = Except.ok [] :=
  retrieve_context_empty_spec storeAbsent "what" "never-indexed" 5
    (Or.inl ⟨"Collection nonexistent", rfl⟩)

/-- Some step of `retrieve_context`'s store interaction raises: opening the
collection, counting it, or (on a non-empty collection) running the
nearest-neighbour query. -/
def queryFails (store : ChromaStore) (query document_id : String) (k : Nat) : Prop :=
  match store.getCollection document_id with
  | .error _ => True
  | .ok col =>
    match col.countR with
    | .error _ => True
    | .ok cnt => cnt ≠ 0 ∧ ∃ e, col.queryR query (min k cnt) = Except.error e

/-- C9: `retrieve_context` is total with respect to vector-store failures:
for every store it returns normally (the Python error channel is never
used), and whenever any of the three store interactions raises, the result
is the empty list. -/
theorem retrieve_context_total (store : ChromaStore) (query document_id : String)
    (k : Nat) :
    (∃ l, retrieve_context store query document_id k = Except.ok l) ∧
    (queryFails store query document_id k →
      retrieve_context store query document_id k = Except.ok []) := by
  rcases hg : store.getCollection document_id with e | col
  · exact ⟨⟨[], by simp [retrieve_context, hg]⟩, fun _ => by simp [retrieve_context, hg]⟩
  · rcases hc : col.countR with e | cnt
    · exact ⟨⟨[], by simp [retrieve_context, hg, hc]⟩,
        fun _ => by simp [retrieve_context, hg, hc]⟩
    · by_cases h0 : cnt = 0
      · subst h0
        exact ⟨⟨[], by simp [retrieve_context, hg, hc]⟩,
          fun _ => by simp [retrieve_context, hg, hc]⟩
      · rcases hq : col.queryR query (min k cnt) with e | results
        · exact ⟨⟨[], by simp [retrieve_context, hg, hc, hq, h0]⟩,
            fun _ => by simp [retrieve_context, hg, hc, hq, h0]⟩
        · constructor
          · exact ⟨results.map (fun r =>
              ({ content := r.content, metadata := r.metadata,
                 similarity_score := 1 - r.distance / 2 } : RetrievalResult)),
              by simp [retrieve_context, hg, hc, hq, h0]⟩
          · intro hf
            have hf2 : cnt ≠ 0 ∧ ∃ e, col.queryR query (min k cnt) = Except.error e := by
              simpa [queryFails, hg, hc] using hf
            obtain ⟨-, e, he⟩ := hf2
            rw [hq] at he
            cases he

/-- C9 witness: a store whose query call raises still produces a normal
empty-list return. -/
theorem retrieve_context_total_witness :
    retrieve_context storeBad "what" "doc" 5 = Except.ok [] :=
  (retrieve_context_total storeBad "what" "doc" 5).2
    ⟨by decide, "query boom", rfl⟩

/-! ### C2: multi-document retrieval -/

/-- The ordering the multi-document result list is sorted by: similarity
scores are non-increasing left to right. -/
def simGE (a b : MultiContext) : Prop := b.similarity_score ≤ a.similarity_score

lemma mem_of_mem_insertDesc (a c : MultiContext) :
    ∀ l : List MultiContext, a ∈ insertDesc c l → a = c ∨ a ∈ l := by
  intro l
  induction l with
  | nil =>
    intro h
    simp only [insertDesc, List.mem_singleton] at h
    exact Or.inl h
  | cons b bs ih =>
    intro h
    simp only [insertDesc] at h
    by_cases hle : b.similarity_score ≤ c.similarity_score
    · rw [if_pos hle] at h
      rcases List.mem_cons.mp h with h1 | h2
      · exact Or.inl h1
      · exact Or.inr h2
    · rw [if_neg hle] at h
      rcases List.mem_cons.mp h with h1 | h2
      · exact Or.inr (h1 ▸ List.mem_cons_self b bs)
      · rcases ih h2 with h3 | h4
        · exact Or.inl h3
        · exact Or.inr (List.mem_cons_of_mem b h4)

lemma pairwise_insertDesc (c : MultiContext) :
    ∀ l : List MultiContext, l.Pairwise simGE → (insertDesc c l).Pairwise simGE := by
  intro l
  induction l with
  | nil =>
    intro _
    simp [insertDesc]
  | cons b bs ih =>
    intro hp
    rcases List.pairwise_cons.mp hp with ⟨hb, hbs⟩
    simp only [insertDesc]
    by_cases hle : b.similarity_score ≤ c.similarity_score
    · rw [if_pos hle]
      refine List.pairwise_cons.mpr ⟨?_, hp⟩
      intro x hx
      rcases List.mem_cons.mp hx with rfl | hx2
      · exact hle
      · exact le_trans (hb x hx2) hle
    · rw [if_neg hle]
      refine List.pairwise_cons.mpr ⟨?_, ih hbs⟩
      intro x hx
      rcases mem_of_mem_insertDesc x c bs hx with rfl | hx2
      · exact le_of_not_le hle
      · exact hb x hx2

lemma sorted_sortBySimDesc : ∀ l : List MultiContext, (sortBySimDesc l).Pairwise simGE := by
  intro l
  induction l with
  | nil => simp [sortBySimDesc]
  | cons x xs ih => exact pairwise_insertDesc x (sortBySimDesc xs) ih

lemma mem_sortBySimDesc (a : MultiContext) :
    ∀ l : List MultiContext, a ∈ sortBySimDesc l → a ∈ l := by
  intro l
  induction l with
  | nil =>
    intro h
    simp [sortBySimDesc] at h
  | cons x xs ih =>
    intro h
    rcases mem_of_mem_insertDesc a x (sortBySimDesc xs) h with rfl | h2
    · exact List.mem_cons_self a xs
    · exact List.mem_cons_of_mem x (ih h2)

lemma foldl_append_contexts (store : ChromaStore) (query : String) (kpd : Nat) :
    ∀ (ids : List String) (init : List MultiContext),
      ids.foldl (fun acc d => acc ++ perDocContexts store query kpd d) init
        = init ++ (ids.map (perDocContexts store query kpd)).flatten := by
  intro ids
  induction ids with
  | nil => intro init; simp
  | cons d ds ih =>
    intro init
    simp only [List.foldl_cons, List.map_cons, List.flatten_cons]
    rw [ih, List.append_assoc]

lemma perDocContexts_spec (store : ChromaStore) (query : String) (kpd : Nat)
    (d : String) (c : MultiContext) (h : c ∈ perDocContexts store query kpd d) :
    c.document_id = d ∧
    ∃ results i r, docQuery store query kpd d = Except.ok results ∧
      (i, r) ∈ results.enum ∧ r.distance < 3 / 2 ∧
      c.content = r.content ∧ c.metadata = r.metadata ∧
      c.similarity_score = 1 - r.distance ∧
      c.source = "Document: " ++ d ++ " | Chunk: " ++ toString i := by
  unfold perDocContexts at h
  rcases hq : docQuery store query kpd d with e | results
  · rw [hq] at h
    cases h
  · rw [hq] at h
    simp only at h
    rcases List.mem_filterMap.mp h with ⟨ir, hmem, htag⟩
    unfold tagResult at htag
    by_cases hd : ir.2.distance < 3 / 2
    · rw [if_pos hd] at htag
      injection htag with hc
      subst hc
      exact ⟨rfl, results, ir.1, ir.2, rfl, by simpa using hmem, hd, rfl, rfl, rfl, rfl⟩
    · rw [if_neg hd] at htag
      cases htag

/-- The provenance every returned multi-document context has: it originates
from a successful `get_collection`/`query` on its own document, from a
result at some enumeration position with distance strictly below 1.5,
carrying similarity `1 - distance` and the human-readable source label. -/
def contextFromStore (store : ChromaStore) (query : String) (kpd : Nat)
    (document_ids : List String) (c : MultiContext) : Prop :=
  c.document_id ∈ document_ids ∧
  ∃ results i r, docQuery store query kpd c.document_id = Except.ok results ∧
    (i, r) ∈ results.enum ∧ r.distance < 3 / 2 ∧
    c.content = r.content ∧ c.metadata = r.metadata ∧
    c.similarity_score = 1 - r.distance ∧
    c.source = "Document: " ++ c.document_id ++ " | Chunk: " ++ toString i

/-- C2: the multi-document retrieval returns at most 10 results, sorted by
non-increasing similarity score, and every result comes from a
distance-< 1.5 vector-store hit of one of the requested documents, tagged
with its originating document identifier and source label. -/
theorem retrieve_multiple_spec (store : ChromaStore) (query : String)
    (document_ids : List String) (k_per_doc : Nat) :
    (retrieve_context_multiple_docs store query document_ids k_per_doc).length ≤ 10 ∧
    (retrieve_context_multiple_docs store query document_ids k_per_doc).Pairwise simGE ∧
    (∀ c ∈ retrieve_context_multiple_docs store query document_ids k_per_doc,
      contextFromStore store query k_per_doc document_ids c) := by
  refine ⟨List.length_take_le 10 _, ?_, ?_⟩
  · exact List.Pairwise.sublist (List.take_sublist 10 _)
      (sorted_sortBySimDesc
        (document_ids.foldl (fun acc d => acc ++ perDocContexts store query k_per_doc d) []))
  · intro c hc
    have hc2 : c ∈ sortBySimDesc
        (document_ids.foldl (fun acc d => acc ++ perDocContexts store query k_per_doc d) []) :=
      List.take_subset 10 _ hc
    have hc3 : c ∈ (document_ids.map (perDocContexts store query k_per_doc)).flatten := by
      have hc4 := mem_sortBySimDesc c _ hc2
      rwa [foldl_append_contexts, List.nil_append] at hc4
    rcases List.mem_flatten.mp hc3 with ⟨l, hl, hcl⟩
    rcases List.mem_map.mp hl with ⟨d, hd, rfl⟩
    obtain ⟨hdoc, rest⟩ := perDocContexts_spec store query k_per_doc d c hcl
    refine ⟨?_, ?_⟩
    · rw [hdoc]; exact hd
    · rw [hdoc]; exact rest

lemma tag_q1 : tagResult "d1" (0, q1) = some ctx1 := by
  unfold tagResult
  rw [if_pos (by norm_num [q1])]
  rfl

lemma store1_perDoc : perDocContexts store1 "what" 3 "d1" = [ctx1] := by
  show List.filterMap (tagResult "d1") [(0, q1)] = [ctx1]
  rw [List.filterMap_cons, tag_q1, List.filterMap_nil]

lemma store1_retrieval : retrieve_context_multiple_docs store1 "what" ["d1"] 3 = [ctx1] := by
  show (sortBySimDesc ([] ++ perDocContexts store1 "what" 3 "d1")).take 10 = [ctx1]
  rw [List.nil_append, store1_perDoc]
  rfl

/-- C2 witness: the single surviving context of `store1` indeed carries the
provenance the theorem promises. -/
theorem retrieve_multiple_spec_witness :
    contextFromStore store1 "what" 3 ["d1"] ctx1 :=
  (retrieve_multiple_spec store1 "what" ["d1"] 3).2.2 ctx1
    (by rw [store1_retrieval]; exact List.mem_singleton.mpr rfl)

/-! ### C6, C7: answer generation -/

/-- C6: with an empty context list, `generate_rag_response` returns the
fixed "could not find relevant context" message; the result is the same
for every generative model, so the model is never consulted. -/
theorem empty_context_fixed_answer (genModel : GenModel) (user_question : String) :
    generate_rag_response genModel [] user_question =
      "I could not find relevant context in the document to answer that question." := by
  unfold generate_rag_response
  rw [if_pos rfl]

/-- C7: when the generative-model call raises, both answer operations
return normally — their result type is a plain string, not an error
channel — with a textual message embedding the underlying cause. -/
theorem generation_failure_in_band (genModel : GenModel) (e : String)
    (hfail : ∀ p, genModel p = Except.error e)
    (context : List RetrievalResult) (hne : context ≠ []) (user_question : String)
    (mcontext : List MultiContext)
    (contexts_by_doc : List (String × List MultiContext)) :
    generate_rag_response genModel context user_question =
      "Error: The AI service failed to generate a response: " ++ e ∧
    generate_rag_response_with_sources genModel mcontext user_question contexts_by_doc =
      "Error generating response: " ++ e := by
  constructor
  · unfold generate_rag_response
    rw [if_neg hne]
    simp only [hfail]
  · unfold generate_rag_response_with_sources
    rw [hfail]

/-- C7 witness: a failing model produces the in-band error strings. -/
theorem generation_failure_in_band_witness :
    generate_rag_response genFail [rctx1] "why" =
      "Error: The AI service failed to generate a response: " ++ "model down" ∧
    generate_rag_response_with_sources genFail [] "why" [] =
      "Error generating response: " ++ "model down" :=
  generation_failure_in_band genFail "model down" (fun _ => rfl) [rctx1]
    (by decide) "why" [] []

/-! ### C8: the ask-multiple endpoint omits its computed sources -/

/-- C8: when at least one context is retrieved, the `ask-multiple` response
holds only the answer: the `sources` key is absent (`none`), even though
the per-result source metadata is computed and covers every retrieved
context. -/
theorem ask_multiple_omits_sources (store : ChromaStore) (genModel : GenModel)
    (document_ids : List String) (question : String)
    (hids : document_ids ≠ []) (hq : question ≠ "")
    (hctx : retrieve_context_multiple_docs store question document_ids 3 ≠ []) :
    contextual_qa_multiple store genModel document_ids question =
      Except.ok
        { answer := generate_rag_response_with_sources genModel
            (retrieve_context_multiple_docs store question document_ids 3) question
            (groupByDoc (retrieve_context_multiple_docs store question document_ids 3)),
          sources := none } ∧
    (source_metadata_multiple
        (retrieve_context_multiple_docs store question document_ids 3)).length =
      (retrieve_context_multiple_docs store question document_ids 3).length := by
  constructor
  · simp only [contextual_qa_multiple]
    rw [if_neg (not_or.mpr ⟨hids, hq⟩), if_neg hctx]
  · simp [source_metadata_multiple]

/-- C8 witness: with one retrieved context the endpoint returns only the
answer field. -/
theorem ask_multiple_omits_sources_witness :
    contextual_qa_multiple store1 genFail ["d1"] "what" =
      Except.ok
        { answer := generate_rag_response_with_sources genFail
            (retrieve_context_multiple_docs store1 "what" ["d1"] 3) "what"
            (groupByDoc (retrieve_context_multiple_docs store1 "what" ["d1"] 3)),
          sources := none } :=
  (ask_multiple_omits_sources store1 genFail ["d1"] "what" (by decide) (by decide)
    (by rw [store1_retrieval]; decide)).1

/-! ### C10: summary styles -/

/-- C10: an unknown summary style falls back to the "overview" prompt
template, and for every style the generated summary depends only on the
first 15 chunks (the prompt truncates there); the function is total — it
always returns a string. -/
theorem summary_fallback_spec (genModel : GenModel) (document_id : String)
    (chunks : List String) (summary_type : String) :
    (summary_type ∉ (["overview", "key_points", "executive", "detailed"] : List String) →
      summaryPrompt chunks summary_type = summaryPrompt chunks "overview") ∧
    generate_document_summary genModel document_id chunks summary_type =
      generate_document_summary genModel document_id (chunks.take 15) summary_type := by
  constructor
  · intro h
    simp only [List.mem_cons, List.not_mem_nil, or_false, not_or] at h
    obtain ⟨h1, h2, h3, h4⟩ := h
    simp only [summaryPrompt]
    rw [if_neg h1, if_neg h2, if_neg h3, if_neg h4]
    simp only [if_true]
  · unfold generate_document_summary summaryPrompt
    rw [List.take_take, Nat.min_self]

/-- C10 witness: the style "bogus" uses the overview template. -/
theorem summary_fallback_spec_witness :
    summaryPrompt ["c1"] "bogus" = summaryPrompt ["c1"] "overview" :=
  (summary_fallback_spec genFail "doc" ["c1"] "bogus").1 (by decide)

end Paperwise
